import Mathlib

/-!
Verification development for the supersonic UI layer: the grid browsing page
(`ui/browsing/gridviewpage.go`), the grid item widget (`ui/widgets/gridviewitem.go`)
and the main window wiring (system tray volume actions, update-notification flow).

Go code is shallowly embedded as pure Lean functions: widget mutation becomes
explicit state passing, pointers that may be nil become `Option`, Go `float32`/
`float64` arithmetic is modelled exactly over `ℚ`, and Go `int` becomes `Int`.
Calls to the page adapter's iterator constructors are recorded in an explicit
request log so that theorems can speak about which iterator requests an
operation issues.
-/

namespace Supersonic

/-! ### Geometry (fyne.Size / fyne.Position), modelled over ℚ -/

/-- fyne.Size: width and height. Go float32 modelled as ℚ. -/
structure Size where
  Width : ℚ
  Height : ℚ
deriving DecidableEq, Repr

/-- fyne.Position: X and Y coordinates. Go float32 modelled as ℚ. -/
structure Position where
  X : ℚ
  Y : ℚ
deriving DecidableEq, Repr

/-! ### coverImage (ui/widgets/gridviewitem.go) -/

/-- From gridviewitem.go: `playBtnSize = fyne.NewSize(60, 60)`. -/
def playBtnSize : Size := ⟨60, 60⟩

/-- From gridviewitem.go: `playBtnHoveredSize = fyne.NewSize(65, 65)`. -/
def playBtnHoveredSize : Size := ⟨65, 65⟩

/-- From gridviewitem.go `isInside`: squared distance from `origin` to `point`
compared against squared `radius`, inclusive. -/
def isInside (origin : Position) (radius : ℚ) (point : Position) : Bool :=
  let x := point.X - origin.X
  let y := point.Y - origin.Y
  decide (x * x + y * y ≤ radius * radius)

/-- State of the `coverImage` widget: its own size, the play button's current
min size (toggled between `playBtnSize` and `playBtnHoveredSize`), whether the
play button is hidden, and whether the pointer was last seen inside the button. -/
structure CoverImage where
  width : ℚ
  height : ℚ
  playbtnMinSize : Size
  playbtnHidden : Bool
  mouseInsideBtn : Bool
deriving DecidableEq, Repr

/-- From gridviewitem.go `center()`: the widget center `(w/2, h/2)`. -/
def CoverImage.center (a : CoverImage) : Position :=
  ⟨a.width / 2, a.height / 2⟩

/-- From gridviewitem.go `MouseMoved`: hit-tests the event position against a
circle whose radius is half the play button's current min size (re-read on
every event), growing the button on entry and shrinking it on exit. -/
def CoverImage.MouseMoved (a : CoverImage) (pos : Position) : CoverImage :=
  if isInside a.center (a.playbtnMinSize.Height / 2) pos then
    { a with
      playbtnMinSize := if a.mouseInsideBtn then a.playbtnMinSize else playBtnHoveredSize,
      mouseInsideBtn := true }
  else
    { a with
      playbtnMinSize := if a.mouseInsideBtn then playBtnSize else a.playbtnMinSize,
      mouseInsideBtn := false }

/-- From gridviewitem.go `ResetPlayButton`: restore default size, clear the
hover flag, hide the button. -/
def CoverImage.ResetPlayButton (a : CoverImage) : CoverImage :=
  { a with playbtnMinSize := playBtnSize, mouseInsideBtn := false, playbtnHidden := true }

/-! ### GridViewItem (ui/widgets/gridviewitem.go) -/

/-- From gridviewitem.go: the model for one grid cell. -/
structure GridViewItemModel where
  Name : String
  ID : String
  CoverArtID : String
  Secondary : String
  SecondaryID : String
deriving DecidableEq, Repr

/-- Modelled from the spec: `CustomHyperlink` (external widget) carries a
display text and a disabled flag; `SetText` replaces the text. -/
structure CustomHyperlink where
  Text : String
  Disabled : Bool
deriving DecidableEq, Repr

/-- Modelled from the spec: `CustomHyperlink.SetText` sets the display text. -/
def CustomHyperlink.SetText (h : CustomHyperlink) (t : String) : CustomHyperlink :=
  { h with Text := t }

/-- State of a `GridViewItem` widget: current identity pair and the two text
hyperlinks, plus the cover image sub-widget. -/
structure GridViewItem where
  itemID : String
  secondaryID : String
  primaryText : CustomHyperlink
  secondaryText : CustomHyperlink
  Cover : CoverImage
deriving DecidableEq, Repr

/-- From gridviewitem.go `NeedsUpdate`:
`g.itemID != model.ID || g.secondaryID != model.SecondaryID`. -/
def GridViewItem.NeedsUpdate (g : GridViewItem) (model : GridViewItemModel) : Bool :=
  g.itemID != model.ID || g.secondaryID != model.SecondaryID

/-- From gridviewitem.go `Update`: copy the identity pair, set both texts, set
the secondary link's disabled flag from `SecondaryID == ""`, and reset the
cover's play button. -/
def GridViewItem.Update (g : GridViewItem) (model : GridViewItemModel) : GridViewItem :=
  { g with
    itemID := model.ID
    secondaryID := model.SecondaryID
    primaryText := g.primaryText.SetText model.Name
    secondaryText :=
      { g.secondaryText.SetText model.Secondary with Disabled := model.SecondaryID == "" }
    Cover := g.Cover.ResetPlayButton }

/-! ### AlbumFilter and iterator requests (ui/browsing/gridviewpage.go) -/

/-- Modelled from the spec: `mediaprovider.AlbumFilter` (external package) is a
value type carrying genre/year/favorite predicates; the Go zero value is
`albumFilterZero`. -/
structure AlbumFilter where
  Genres : List String
  MinYear : Int
  MaxYear : Int
  ExcludeFavorited : Bool
  ExcludeUnfavorited : Bool
deriving DecidableEq, Repr

/-- The Go zero value `mediaprovider.AlbumFilter{}`. -/
def albumFilterZero : AlbumFilter :=
  { Genres := [], MinYear := 0, MaxYear := 0, ExcludeFavorited := false,
    ExcludeUnfavorited := false }

/-- One iterator request issued to the page adapter: either
`adapter.Iter(sortOrder, filter)` or `adapter.SearchIter(query, filter)`.
An iterator is identified with the request that produced it. -/
inductive IterRequest where
  | iter (sortOrder : String) (filter : AlbumFilter)
  | searchIter (query : String) (filter : AlbumFilter)
deriving DecidableEq, Repr

/-- Modelled from the spec: `widgets.GridViewState` (external widget package)
is an opaque snapshot of a grid's scroll position and loaded items, used to
restore a grid without re-fetching. A grid freshly reset from an iterator is in
state `fromIter req`; a grid reset from a nil state pointer is `fromNilState`. -/
inductive GridViewState where
  | fromIter (req : IterRequest)
  | fromNilState
deriving DecidableEq, Repr

/-- The observable state of the external `widgets.GridView` widget. -/
abbrev GridView := GridViewState

/-- Modelled from the spec: `GridView.Reset(iter)` discards the grid contents
and repopulates from the iterator. -/
def GridView.Reset (_g : GridView) (req : IterRequest) : GridView :=
  .fromIter req

/-- Modelled from the spec: `GridView.SaveToState()` snapshots the grid; the
snapshot restores the grid exactly. -/
def GridView.SaveToState (g : GridView) : GridViewState :=
  g

/-- Modelled from the spec: `GridView.ResetFromState(s)` restores the grid to
the snapshot `s` without issuing any iterator request (`s` is a Go pointer and
may be nil). -/
def GridView.ResetFromState (_g : GridView) (s : Option GridViewState) : GridView :=
  s.getD .fromNilState

/-! ### GridViewPage (ui/browsing/gridviewpage.go) -/

/-- The page adapter capability (`GridViewPageAdapter`), with the optional
`SortableGridViewPageAdapter` capability as an `Option`: `some (sorts, selected)`
when the adapter also implements `SortOrders()`. `Filter` is the result of the
adapter's `Filter()` method: nil (unfilterable) or a possibly zero-valued
filter. -/
structure GridViewPageAdapter where
  Filter : Option AlbumFilter
  SortOrders : Option (List String × String)
deriving DecidableEq, Repr

/-- The adapter's `Iter(sortOrder, filter)`; the returned iterator is
identified with its request. -/
def GridViewPageAdapter.Iter (_a : GridViewPageAdapter) (sortOrder : String)
    (filter : AlbumFilter) : IterRequest :=
  .iter sortOrder filter

/-- The adapter's `SearchIter(query, filter)`; the returned iterator is
identified with its request. -/
def GridViewPageAdapter.SearchIter (_a : GridViewPageAdapter) (query : String)
    (filter : AlbumFilter) : IterRequest :=
  .searchIter query filter

/-- The `sortOrderSelect` widget: options, current selection, and whether the
control is disabled (`Disable()`/`Enable()`). -/
structure SortOrderSelect where
  Options : List String
  Selected : String
  disabled : Bool
deriving DecidableEq, Repr

/-- State of a `GridViewPage`: the live grid, the two saved-state pointers, the
optional sort control, whether a filter button was created, the filter pointer,
and the current search text. -/
structure GridViewPage where
  adapter : GridViewPageAdapter
  grid : GridView
  gridState : Option GridViewState
  searchGridState : Option GridViewState
  sortOrder : Option SortOrderSelect
  filterBtn : Bool
  filter : Option AlbumFilter
  searchText : String
deriving DecidableEq, Repr

/-- From gridviewpage.go `getFilter`: dereference the filter pointer, or the
zero filter when it is nil. -/
def GridViewPage.getFilter (g : GridViewPage) : AlbumFilter :=
  match g.filter with
  | some f => f
  | none => albumFilterZero

/-- From gridviewpage.go `getSortOrder`: the sort control's selection, or `""`
when the page has no sort control. -/
def GridViewPage.getSortOrder (g : GridViewPage) : String :=
  match g.sortOrder with
  | some s => s.Selected
  | none => ""

/-- From gridviewpage.go `NewGridViewPage` (with `createTitleAndSort` and
`createSearchAndFilter` inlined): reads the adapter's filter, builds the sort
control when the adapter is sortable, issues the initial `adapter.Iter`
request, and creates the filter button exactly when the filter is non-nil.
Returns the page together with the log of iterator requests issued. -/
def NewGridViewPage (adapter : GridViewPageAdapter) : GridViewPage × List IterRequest :=
  let filter := adapter.Filter
  let sortOrder := adapter.SortOrders.map fun p =>
    ({ Options := p.1, Selected := p.2, disabled := false } : SortOrderSelect)
  let preGrid : GridViewPage :=
    { adapter := adapter, grid := .fromNilState, gridState := none,
      searchGridState := none, sortOrder := sortOrder, filterBtn := false,
      filter := filter, searchText := "" }
  let req := adapter.Iter preGrid.getSortOrder preGrid.getFilter
  ({ preGrid with grid := GridView.Reset preGrid.grid req, filterBtn := filter.isSome },
   [req])

/-- From gridviewpage.go `doSearch`: snapshot the browsing grid state only when
`searchText` is still empty, then reset the grid with an `adapter.SearchIter`
request. (`searchText` itself is updated afterwards, by `OnSearched`.) -/
def GridViewPage.doSearch (g : GridViewPage) (query : String) :
    GridViewPage × List IterRequest :=
  let gridState := if g.searchText = "" then some g.grid.SaveToState else g.gridState
  let req := g.adapter.SearchIter query g.getFilter
  ({ g with gridState := gridState, grid := g.grid.Reset req }, [req])

/-- From gridviewpage.go `Reload`: re-issue the search iterator when a search
is active, otherwise re-issue the browsing iterator with the current sort order
and filter. -/
def GridViewPage.Reload (g : GridViewPage) : GridViewPage × List IterRequest :=
  if g.searchText ≠ "" then
    g.doSearch g.searchText
  else
    let req := g.adapter.Iter g.getSortOrder g.getFilter
    ({ g with grid := g.grid.Reset req }, [req])

/-- From gridviewpage.go `OnSearched`: clearing the query re-enables the sort
control, restores the grid from the browsing snapshot and drops the search
snapshot; a non-empty query disables the sort control and runs `doSearch`.
Finally `searchText` is set to the query. -/
def GridViewPage.OnSearched (g : GridViewPage) (query : String) :
    GridViewPage × List IterRequest :=
  if query = "" then
    let so := g.sortOrder.map fun s => { s with disabled := false }
    ({ g with
        sortOrder := so, grid := g.grid.ResetFromState g.gridState,
        searchGridState := none, searchText := query }, [])
  else
    let so := g.sortOrder.map fun s => { s with disabled := true }
    let r := GridViewPage.doSearch { g with sortOrder := so } query
    ({ r.1 with searchText := query }, r.2)

/-- From gridviewpage.go `savedGridViewPage`: the detached value produced by
`Save` (the widget-pool and provider handles are not modelled). -/
structure SavedGridViewPage where
  adapter : GridViewPageAdapter
  searchText : String
  filter : Option AlbumFilter
  sortOrder : String
  gridState : Option GridViewState
  searchGridState : Option GridViewState
deriving DecidableEq, Repr

/-- From gridviewpage.go `Save`: copy the page fields, then overwrite
`gridState` with the live grid's snapshot when no search is active, and
`searchGridState` with it otherwise. -/
def GridViewPage.Save (g : GridViewPage) : SavedGridViewPage :=
  let sa : SavedGridViewPage :=
    { adapter := g.adapter, searchText := g.searchText, filter := g.filter,
      sortOrder := g.getSortOrder, gridState := g.gridState,
      searchGridState := g.searchGridState }
  if g.searchText = "" then
    { sa with gridState := some g.grid.SaveToState }
  else
    { sa with searchGridState := some g.grid.SaveToState }

/-- From gridviewpage.go `savedGridViewPage.Restore`: rebuild the page chrome,
pick the search snapshot (disabling sort) when a search was active and the
browsing snapshot otherwise, and repopulate the grid from that snapshot without
issuing any iterator request. -/
def SavedGridViewPage.Restore (s : SavedGridViewPage) : GridViewPage × List IterRequest :=
  let sortOrder := s.adapter.SortOrders.map fun p =>
    ({ Options := p.1, Selected := p.2, disabled := false } : SortOrderSelect)
  let sortOrder := if s.searchText ≠ "" then
      sortOrder.map fun so => { so with disabled := true }
    else sortOrder
  let state := if s.searchText ≠ "" then s.searchGridState else s.gridState
  ({ adapter := s.adapter, grid := GridView.ResetFromState .fromNilState state,
     gridState := s.gridState, searchGridState := s.searchGridState,
     sortOrder := sortOrder, filterBtn := s.filter.isSome, filter := s.filter,
     searchText := s.searchText }, [])

/-- An externally triggered page operation, for stating temporal properties
over sequences of search and reload events. -/
inductive PageOp where
  | searched (query : String)
  | reload
deriving DecidableEq, Repr

/-- Apply one page operation, discarding the request log. -/
def applyOp (g : GridViewPage) : PageOp → GridViewPage
  | .searched q => (g.OnSearched q).1
  | .reload => g.Reload.1

/-- Run a sequence of page operations from left to right. -/
def runOps (g : GridViewPage) : List PageOp → GridViewPage
  | [] => g
  | op :: ops => runOps (applyOp g op) ops

/-! ### System-tray volume actions (ui, MainWindow.SetupSystemTrayMenu) -/

/-- Go conversion `int(q)` for a real value: truncation toward zero. -/
def truncTowardZero (q : ℚ) : Int :=
  if 0 ≤ q then ⌊q⌋ else ⌈q⌉

/-- The playback manager as seen by the tray menu: the current volume, plus a
log of the values passed to `SetVolume` (clamping to the valid range happens
inside the excluded backend, behind this call). -/
structure PlaybackManager where
  volume : Int
  setVolumeCalls : List Int
deriving DecidableEq, Repr

/-- The backend's `Volume()` accessor. -/
def PlaybackManager.Volume (pm : PlaybackManager) : Int :=
  pm.volume

/-- The backend's `SetVolume(v)`: records the requested value; the backend
clamps it to the valid range. -/
def PlaybackManager.SetVolume (pm : PlaybackManager) (v : Int) : PlaybackManager :=
  { pm with setVolumeCalls := pm.setVolumeCalls ++ [v] }

/-- From the tray menu item `"Volume +10%"`:
`vol := pm.Volume(); vol = vol + int(float64(vol)*0.1); pm.SetVolume(vol)`.
The `float64` product is modelled exactly over ℚ (`0.1 : ℚ` is exactly 1/10),
and `int(·)` truncates toward zero. -/
def trayVolumePlus10 (pm : PlaybackManager) : PlaybackManager :=
  let vol := pm.Volume
  let vol2 := vol + truncTowardZero ((vol : ℚ) * (0.1 : ℚ))
  pm.SetVolume vol2

/-- From the tray menu item `"Volume -10%"`:
`vol := pm.Volume(); vol = vol - int(float64(vol)*0.1); pm.SetVolume(vol)`. -/
def trayVolumeMinus10 (pm : PlaybackManager) : PlaybackManager :=
  let vol := pm.Volume
  let vol2 := vol - truncTowardZero ((vol : ℚ) * (0.1 : ℚ))
  pm.SetVolume vol2

/-! ### Update-notification flow (ui, NewMainWindow / ShowNewVersionDialog) -/

/-- The update-notification state: the persisted
`Config.Application.LastCheckedVersion` tag and the log of version tags for
which the new-version dialog has been shown. -/
structure UpdateFlow where
  LastCheckedVersion : String
  shownDialogs : List String
deriving DecidableEq, Repr

/-- From `MainWindow.ShowNewVersionDialog`: queues the new-version dialog for
`versionTag` (recorded in the shown-dialog log). -/
def ShowNewVersionDialog (s : UpdateFlow) (versionTag : String) : UpdateFlow :=
  { s with shownDialogs := s.shownDialogs ++ [versionTag] }

/-- From the `OnServerConnected` callback in `NewMainWindow`: with `t` the tag
reported by `UpdateChecker.VersionTagFound()`, when `t != "" && t !=
LastCheckedVersion`, show the dialog unless `t` is the running version, then
record `t` as the last checked version. -/
def onServerConnectedVersionCheck (appVersionTag t : String) (s : UpdateFlow) :
    UpdateFlow :=
  if t ≠ "" ∧ t ≠ s.LastCheckedVersion then
    let s1 := if t ≠ appVersionTag then ShowNewVersionDialog s t else s
    { s1 with LastCheckedVersion := t }
  else s

/-- From the `OnUpdatedVersionFound` callback registered in `NewMainWindow`:
with `t` the tag reported by `UpdateChecker.VersionTagFound()`, show the dialog
whenever `t` differs from the running version, then record `t` as the last
checked version. -/
def onUpdatedVersionFound (appVersionTag t : String) (s : UpdateFlow) : UpdateFlow :=
  let s1 := if t ≠ appVersionTag then ShowNewVersionDialog s t else s
  { s1 with LastCheckedVersion := t }

/-! ### Concrete pages used to instantiate theorems with hypotheses -/

/-- An example sortable, filterable adapter. -/
def exampleAdapter : GridViewPageAdapter :=
  { Filter := some albumFilterZero,
    SortOrders := some (["A-Z", "Recently Added"], "A-Z") }

/-- An example page in the browsing state (no search active). -/
def browsePage : GridViewPage :=
  { adapter := exampleAdapter,
    grid := .fromIter (.iter "A-Z" albumFilterZero),
    gridState := none,
    searchGridState := none,
    sortOrder := some { Options := ["A-Z", "Recently Added"], Selected := "A-Z",
                        disabled := false },
    filterBtn := true,
    filter := some albumFilterZero,
    searchText := "" }

/-- An example page with an active search. -/
def searchPage : GridViewPage :=
  { adapter := exampleAdapter,
    grid := .fromIter (.searchIter "moon" albumFilterZero),
    gridState := some (.fromIter (.iter "A-Z" albumFilterZero)),
    searchGridState := none,
    sortOrder := some { Options := ["A-Z", "Recently Added"], Selected := "A-Z",
                        disabled := true },
    filterBtn := true,
    filter := some albumFilterZero,
    searchText := "moon" }

/-! ### Theorems -/

/-- C6: `NeedsUpdate` returns `false` exactly when the model's (ID, SecondaryID)
pair equals the item's current (itemID, secondaryID) pair, and is unaffected by
differences in `Name`, `CoverArtID` or `Secondary`. -/
theorem needsUpdate_identity_pair (g : GridViewItem) (m : GridViewItemModel) :
    (g.NeedsUpdate m = false ↔ g.itemID = m.ID ∧ g.secondaryID = m.SecondaryID)
    ∧ (∀ name cover sec : String,
        g.NeedsUpdate { m with Name := name, CoverArtID := cover, Secondary := sec }
          = g.NeedsUpdate m) := by
  constructor
  · simp [GridViewItem.NeedsUpdate]
  · intro name cover sec
    rfl

/-- C10: `Update(model)` disables the secondary hyperlink exactly when
`model.SecondaryID` is empty, always sets the two display texts from the model,
and resets the cover play button to hidden, non-hovered, default size. -/
theorem update_secondary_link_and_reset (g : GridViewItem) (m : GridViewItemModel) :
    ((g.Update m).secondaryText.Disabled = true ↔ m.SecondaryID = "")
    ∧ (g.Update m).primaryText.Text = m.Name
    ∧ (g.Update m).secondaryText.Text = m.Secondary
    ∧ (g.Update m).Cover.playbtnHidden = true
    ∧ (g.Update m).Cover.mouseInsideBtn = false
    ∧ (g.Update m).Cover.playbtnMinSize = playBtnSize := by
  refine ⟨?_, rfl, rfl, rfl, rfl, rfl⟩
  simp [GridViewItem.Update]

/-- C5: page construction creates a filter button exactly when the adapter's
`Filter()` is non-nil; a non-nil zero-valued filter still yields a button,
while nil yields none. -/
theorem filter_button_iff_filter_nonnil (a : GridViewPageAdapter) :
    ((NewGridViewPage a).1.filterBtn = true ↔ a.Filter ≠ none)
    ∧ (NewGridViewPage { a with Filter := some albumFilterZero }).1.filterBtn = true
    ∧ (NewGridViewPage { a with Filter := none }).1.filterBtn = false := by
  refine ⟨?_, rfl, rfl⟩
  simp [NewGridViewPage, Option.isSome_iff_ne_none]

/-- Truncated multiplication by one tenth agrees with truncated integer
division by 10. -/
theorem trunc_tenth_eq_tdiv (v : Int) :
    truncTowardZero ((v : ℚ) * (0.1 : ℚ)) = Int.tdiv v 10 := by
  have hq : (v : ℚ) * (0.1 : ℚ) = (v : ℚ) / ((10 : ℕ) : ℚ) := by
    push_cast
    ring
  rcases le_or_lt 0 v with hv | hv
  · have hvq : (0 : ℚ) ≤ (v : ℚ) := by exact_mod_cast hv
    have h0 : (0 : ℚ) ≤ (v : ℚ) * (0.1 : ℚ) := by nlinarith
    rw [truncTowardZero, if_pos h0, hq, Rat.floor_intCast_div_natCast,
      Int.tdiv_eq_ediv hv (by decide)]
    rfl
  · have hvq : (v : ℚ) < 0 := by exact_mod_cast hv
    have h0 : ¬ (0 : ℚ) ≤ (v : ℚ) * (0.1 : ℚ) := by
      rw [not_le]
      nlinarith
    have hneg : (v : ℚ) / ((10 : ℕ) : ℚ) = -((((-v) : ℤ) : ℚ) / ((10 : ℕ) : ℚ)) := by
      push_cast
      ring
    rw [truncTowardZero, if_neg h0, hq, hneg, Int.ceil_neg,
      Rat.floor_intCast_div_natCast, ← Int.tdiv_eq_ediv (by omega) (by decide),
      Int.neg_tdiv, Int.neg_neg]
    norm_num

/-- C8: each tray volume action reads the current volume `v` and passes
`v + trunc(v*0.1)` (resp. `v - trunc(v*0.1)`) to the backend `SetVolume`,
which is `v ± v.tdiv 10` in integer arithmetic; clamping is delegated to the
backend behind `SetVolume`. -/
theorem tray_volume_nudge (pm : PlaybackManager) :
    trayVolumePlus10 pm = pm.SetVolume (pm.Volume + Int.tdiv pm.Volume 10)
    ∧ trayVolumeMinus10 pm = pm.SetVolume (pm.Volume - Int.tdiv pm.Volume 10) := by
  unfold trayVolumePlus10 trayVolumeMinus10
  simp [trunc_tenth_eq_tdiv]

/-- C9 counterexample: with `"v0.3.0"` already stored as the last checked
version (and the dialog already shown for it), a periodic-update discovery of
the same tag `"v0.3.0"` on an app running `"v0.1.0"` queues the dialog a second
time: the flow re-prompts for a tag that was already stored. -/
theorem periodic_update_reprompts_stored_tag :
    (onUpdatedVersionFound "v0.1.0" "v0.3.0"
        { LastCheckedVersion := "v0.3.0", shownDialogs := ["v0.3.0"] }).shownDialogs
      = ["v0.3.0", "v0.3.0"] := by
  rfl

/-- C9 (amended): the startup-connect check is a no-op when the discovered tag
equals the stored last-seen version, and records any other non-empty tag; the
periodic callback always records the tag, and suppresses the dialog only when
the tag equals the running version (it does not consult the stored tag). -/
theorem update_notification_amended (appTag t : String) (s : UpdateFlow) :
    (t = s.LastCheckedVersion → onServerConnectedVersionCheck appTag t s = s)
    ∧ (t ≠ "" → t ≠ s.LastCheckedVersion →
        (onServerConnectedVersionCheck appTag t s).LastCheckedVersion = t)
    ∧ (onUpdatedVersionFound appTag t s).LastCheckedVersion = t
    ∧ (t = appTag → (onUpdatedVersionFound appTag t s).shownDialogs = s.shownDialogs) := by
  refine ⟨?_, ?_, rfl, ?_⟩
  · intro h
    simp [onServerConnectedVersionCheck, h]
  · intro h1 h2
    simp [onServerConnectedVersionCheck, h1, h2]
  · intro h
    simp [onUpdatedVersionFound, h]

/-- Witness for the amended C9 theorem at concrete inputs. -/
theorem update_notification_amended_witness :
    onServerConnectedVersionCheck "v1.0" "v2.0"
        { LastCheckedVersion := "v2.0", shownDialogs := ["v2.0"] }
      = { LastCheckedVersion := "v2.0", shownDialogs := ["v2.0"] }
    ∧ (onUpdatedVersionFound "v1.0" "v2.1"
        { LastCheckedVersion := "v2.0", shownDialogs := [] }).LastCheckedVersion = "v2.1" :=
  ⟨(update_notification_amended "v1.0" "v2.0"
      { LastCheckedVersion := "v2.0", shownDialogs := ["v2.0"] }).1 rfl,
   (update_notification_amended "v1.0" "v2.1"
      { LastCheckedVersion := "v2.0", shownDialogs := [] }).2.2.1⟩

/-- C7: the hit test is inclusive at the boundary (distance² equal to radius²
counts as inside), and `MouseMoved` re-evaluates the radius from the current
play-button min size: with the default size 60 the radius is 30 and a point
with distance² above 900 is classified outside, while with the hover-enlarged
size 65 the radius is 32.5 and any point with distance² at most 1056.25 is
classified inside — so a point at distance strictly between 30 and 32.5 flips
from outside to inside after hover growth. -/
theorem hit_test_boundary_and_hover_growth :
    (∀ (origin point : Position) (radius : ℚ),
        (point.X - origin.X) * (point.X - origin.X)
            + (point.Y - origin.Y) * (point.Y - origin.Y) = radius * radius →
        isInside origin radius point = true)
    ∧ (∀ (c : CoverImage) (p : Position),
        c.playbtnMinSize = playBtnSize →
        900 < (p.X - c.center.X) * (p.X - c.center.X)
            + (p.Y - c.center.Y) * (p.Y - c.center.Y) →
        (c.MouseMoved p).mouseInsideBtn = false)
    ∧ (∀ (c : CoverImage) (p : Position),
        c.playbtnMinSize = playBtnHoveredSize →
        (p.X - c.center.X) * (p.X - c.center.X)
            + (p.Y - c.center.Y) * (p.Y - c.center.Y) ≤ 1056.25 →
        (c.MouseMoved p).mouseInsideBtn = true) := by
  refine ⟨?_, ?_, ?_⟩
  · intro origin point radius h
    simp only [isInside, decide_eq_true_eq]
    exact le_of_eq h
  · intro c p hsize hd
    have hins : isInside c.center (c.playbtnMinSize.Height / 2) p = false := by
      simp only [isInside, hsize, playBtnSize, decide_eq_false_iff_not, not_le]
      norm_num
      linarith
    simp [CoverImage.MouseMoved, hins]
  · intro c p hsize hd
    have hins : isInside c.center (c.playbtnMinSize.Height / 2) p = true := by
      simp only [isInside, hsize, playBtnHoveredSize, decide_eq_true_eq]
      norm_num
      linarith
    simp [CoverImage.MouseMoved, hins]

/-- Witness for the hit-test theorem: on a 200×200 cover (center (100, 100)),
the point (131, 100) at distance 31 from the center is outside the default
size-60 button but inside the hover-enlarged size-65 button, and (3, 4) lies
exactly on the circle of radius 5 around the origin and is classified inside. -/
theorem hit_test_boundary_and_hover_growth_witness :
    isInside ⟨0, 0⟩ 5 ⟨3, 4⟩ = true
    ∧ (CoverImage.MouseMoved
        { width := 200, height := 200, playbtnMinSize := ⟨60, 60⟩,
          playbtnHidden := false, mouseInsideBtn := false }
        ⟨131, 100⟩).mouseInsideBtn = false
    ∧ (CoverImage.MouseMoved
        { width := 200, height := 200, playbtnMinSize := ⟨65, 65⟩,
          playbtnHidden := false, mouseInsideBtn := true }
        ⟨131, 100⟩).mouseInsideBtn = true :=
  ⟨hit_test_boundary_and_hover_growth.1 ⟨0, 0⟩ ⟨3, 4⟩ 5 (by norm_num),
   hit_test_boundary_and_hover_growth.2.1 _ _ rfl
     (by norm_num [CoverImage.center]),
   hit_test_boundary_and_hover_growth.2.2 _ _ rfl
     (by norm_num [CoverImage.center])⟩

/-- C1: from the browsing state, entering a non-empty search and then clearing
it restores the grid from the snapshot taken at search entry: a `Save()` after
the clear carries the same `gridState` and the same adapter, filter and sort
order as a `Save()` taken just before the search, and the clear issues no
iterator request at all (in particular no `adapter.Iter` call). -/
theorem search_clear_restores_presearch_state (g : GridViewPage) (q : String)
    (hbrowse : g.searchText = "") (hq : q ≠ "") :
    (((g.OnSearched q).1.OnSearched "").1.Save.gridState = g.Save.gridState
    ∧ ((g.OnSearched q).1.OnSearched "").1.Save.adapter = g.Save.adapter
    ∧ ((g.OnSearched q).1.OnSearched "").1.Save.filter = g.Save.filter
    ∧ ((g.OnSearched q).1.OnSearched "").1.Save.sortOrder = g.Save.sortOrder)
    ∧ ((g.OnSearched q).1.OnSearched "").2 = [] := by
  cases hso : g.sortOrder <;>
    simp [GridViewPage.OnSearched, GridViewPage.doSearch, GridViewPage.Save,
      GridViewPage.getSortOrder, GridViewPage.getFilter, GridView.SaveToState,
      GridView.Reset, GridView.ResetFromState, hbrowse, hq, hso]

/-- Witness for the search/clear round-trip theorem on a concrete browsing
page. -/
theorem search_clear_restores_presearch_state_witness :
    ((browsePage.OnSearched "moon").1.OnSearched "").1.Save.gridState
      = browsePage.Save.gridState
    ∧ ((browsePage.OnSearched "moon").1.OnSearched "").2 = [] :=
  ⟨(search_clear_restores_presearch_state browsePage "moon" rfl (by decide)).1.1,
   (search_clear_restores_presearch_state browsePage "moon" rfl (by decide)).2⟩

/-- C2: once `searchText` is non-empty, any sequence of further `OnSearched`
calls with non-empty queries and `Reload` calls leaves `gridState` untouched:
`doSearch` snapshots the browsing grid state only on the empty-to-non-empty
transition, so the page never snapshots twice in a row. -/
theorem snapshot_only_on_search_entry (g : GridViewPage) (ops : List PageOp)
    (hg : g.searchText ≠ "")
    (hops : ∀ op ∈ ops, op ≠ PageOp.searched "") :
    (runOps g ops).gridState = g.gridState := by
  induction ops generalizing g with
  | nil => rfl
  | cons op ops ih =>
    have hstep : (applyOp g op).gridState = g.gridState
        ∧ (applyOp g op).searchText ≠ "" := by
      cases op with
      | searched q =>
        have hq : q ≠ "" := by
          intro h
          exact hops (PageOp.searched q) (List.mem_cons_self _ _) (by rw [h])
        simp [applyOp, GridViewPage.OnSearched, GridViewPage.doSearch, hq, hg]
      | reload =>
        simp [applyOp, GridViewPage.Reload, GridViewPage.doSearch, hg]
    have htail : ∀ op1 ∈ ops, op1 ≠ PageOp.searched "" := fun op1 h1 =>
      hops op1 (by simp [h1])
    calc (runOps g (op :: ops)).gridState
        = (runOps (applyOp g op) ops).gridState := rfl
      _ = (applyOp g op).gridState := ih _ hstep.2 htail
      _ = g.gridState := hstep.1

/-- Witness for the no-resnapshot theorem on a concrete page with an active
search, running a further search and a reload. -/
theorem snapshot_only_on_search_entry_witness :
    (runOps searchPage [PageOp.searched "moonlight", PageOp.reload]).gridState
      = searchPage.gridState :=
  snapshot_only_on_search_entry searchPage [PageOp.searched "moonlight", PageOp.reload]
    (by decide) (by decide)

/-- At most one grid-state slot is active: in the browsing state the search
snapshot pointer is nil. -/
def activeStateInv (g : GridViewPage) : Prop :=
  g.searchText = "" → g.searchGridState = none

/-- C3: construction, `OnSearched`, `doSearch`, `Reload` and `Save`-then-
`Restore` all preserve the invariant that the search snapshot is nil whenever
no search is active (so at most one of the two slots is active, selected by
`searchText`); `Save` writes the live grid state into `gridState` when
`searchText` is empty and into `searchGridState` otherwise, and clearing a
search sets `searchGridState` to nil. -/
theorem one_active_grid_state (g : GridViewPage) (a : GridViewPageAdapter)
    (q : String) (h : activeStateInv g) :
    activeStateInv (NewGridViewPage a).1
    ∧ activeStateInv (g.OnSearched q).1
    ∧ activeStateInv (g.doSearch q).1
    ∧ activeStateInv g.Reload.1
    ∧ activeStateInv g.Save.Restore.1
    ∧ (g.searchText = "" → g.Save.gridState = some g.grid.SaveToState
        ∧ g.Save.searchGridState = g.searchGridState)
    ∧ (g.searchText ≠ "" → g.Save.searchGridState = some g.grid.SaveToState
        ∧ g.Save.gridState = g.gridState)
    ∧ (g.OnSearched "").1.searchGridState = none := by
  unfold activeStateInv at h ⊢
  by_cases hg : g.searchText = "" <;>
    by_cases hq : q = "" <;>
      simp [NewGridViewPage, GridViewPage.OnSearched, GridViewPage.doSearch,
        GridViewPage.Reload, GridViewPage.Save, SavedGridViewPage.Restore,
        GridView.SaveToState, hg, hq, h]

/-- Witness for the active-slot invariant theorem on a concrete browsing
page. -/
theorem one_active_grid_state_witness :
    activeStateInv (browsePage.OnSearched "x").1
    ∧ browsePage.Save.gridState = some browsePage.grid.SaveToState :=
  ⟨(one_active_grid_state browsePage exampleAdapter "x" (fun _ => rfl)).2.1,
   ((one_active_grid_state browsePage exampleAdapter "x" (fun _ => rfl)).2.2.2.2.2.1
      rfl).1⟩

/-- C4: `Reload` is idempotent over iterator requests: reloading twice with no
intervening change issues the same single request both times — the same choice
of `Iter` versus `SearchIter` with the same sort order / query and the same
filter argument. -/
theorem reload_idempotent_requests (g : GridViewPage) :
    g.Reload.1.Reload.2 = g.Reload.2 ∧ g.Reload.2.length = 1 := by
  by_cases hg : g.searchText = "" <;>
    simp [GridViewPage.Reload, GridViewPage.doSearch, GridViewPage.getSortOrder,
      GridViewPage.getFilter, hg]

end Supersonic
